import Mathlib

/-!
# Verification of the AI-Applications API routes

Shallow embedding of the Next.js API routes of this repository:

* `src/app/api/summarize/route.ts`   — summarization with Hugging Face fallback chain plus Gemini
* `src/app/api/classify/route.ts`    — classification with Hugging Face plus Gemini fallback
* `src/app/api/chat-enhanced/route.ts` — enhanced chat (personas, session memory) and the
  in-memory RAG document store route bundled in the same file

Remote providers (fetch to Hugging Face, the Gemini SDK, the OpenRouter chat model,
the LangChain text splitter and embeddings) are modelled as oracle functions carried in
an environment record; everything the routes do around those calls (credential checks,
validation, fallback order, truthiness tests, response shaping, store mutation) is
translated directly from the TypeScript source.

Conventions:
* JavaScript strings are modelled as Lean `String`; lengths are character counts
  (JavaScript counts UTF-16 units, which differs only for astral-plane characters,
  none of which the routes treat specially).
* A JavaScript value that may be `undefined`/`null` is an `Option`.
* A thrown exception caught by a try/catch is an `Except.error` carrying the message.
* `Math.round` on floats is modelled exactly over `ℚ` as floor (x + 1/2).
-/

/-- Truthiness of a JavaScript string-or-nullish value:
`undefined`, `null` and the empty string are falsy. -/
def jsStrTruthy : Option String → Bool
  | none => false
  | some s => !s.isEmpty

/-- `!process.env.HUGGINGFACE_API_TOKEN || token === "your_huggingface_token_here"`
negated: the Hugging Face token is configured. -/
def hfTokenConfigured (t : Option String) : Bool :=
  jsStrTruthy t && t ≠ some "your_huggingface_token_here"

/-- The Gemini key is configured (absent, empty or placeholder count as missing). -/
def geminiKeyConfigured (t : Option String) : Bool :=
  jsStrTruthy t && t ≠ some "your_gemini_api_key_here"

/-- The OpenRouter key is configured (absent, empty or placeholder count as missing). -/
def openrouterKeyConfigured (t : Option String) : Bool :=
  jsStrTruthy t && t ≠ some "your_openrouter_api_key_here"

/-- Membership in the JavaScript regex class backslash-s (ECMAScript WhiteSpace and
LineTerminator), also the set removed by `String.prototype.trim`. -/
def isJsWhitespace (c : Char) : Bool :=
  c = ' ' || c = '\t' || c = '\n' || c = '\r' ||
  c = '\x0b' || c = '\x0c' || c = '\u00A0' || c = '\u1680' ||
  (0x2000 ≤ c.toNat && c.toNat ≤ 0x200A) ||
  c = '\u2028' || c = '\u2029' || c = '\u202F' || c = '\u205F' ||
  c = '\u3000' || c = '\uFEFF'

/-- `text.trim()` on the underlying character list. -/
def jsTrimList (s : List Char) : List Char :=
  ((s.dropWhile isJsWhitespace).reverse.dropWhile isJsWhitespace).reverse

/-- `text.trim()`. -/
def jsTrim (s : String) : String :=
  String.mk (jsTrimList s.data)

mutual

/-- Worker for splitting on runs of whitespace: `acc` holds the (reversed)
characters of the field being accumulated, and `jsSplitWsSkip` consumes the rest
of a whitespace run.  Mirrors `split` with the regex backslash-s-plus: each
maximal whitespace run ends a field, and the final field is always emitted (so a
leading or trailing run contributes an empty field, as in JavaScript). -/
def jsSplitWsAux : List Char → List Char → List (List Char)
  | [], acc => [acc.reverse]
  | c :: cs, acc =>
    if isJsWhitespace c then acc.reverse :: jsSplitWsSkip cs
    else jsSplitWsAux cs (c :: acc)

/-- Consume the remainder of a whitespace run, then resume field accumulation;
a run reaching the end of the string yields a trailing empty field. -/
def jsSplitWsSkip : List Char → List (List Char)
  | [] => [[]]
  | c :: cs => if isJsWhitespace c then jsSplitWsSkip cs else jsSplitWsAux cs [c]

end

/-- `text.split(` regex backslash-s-plus `)`. -/
def jsSplitWs (s : List Char) : List (List Char) :=
  jsSplitWsAux s []

/-- `countWords` from `summarize/route.ts`:
`text.trim().split(` ws regex `).filter(word => word.length > 0).length`. -/
def countWords (s : String) : Nat :=
  ((jsSplitWs (jsTrimList s.data)).filter (fun w => w.length > 0)).length

/-- `Math.round` (round half toward positive infinity), exact over the rationals. -/
def jsRound (q : ℚ) : ℤ :=
  ⌊q + 1 / 2⌋

/-- `calculateCompressionRatio` from `summarize/route.ts`:
`Math.round((1 - summaryWords / originalWords) * 100)`.
(The JavaScript division is on IEEE doubles; it is modelled exactly over `ℚ`.
For zero original words JavaScript produces NaN while this model yields 100;
no claim concerns that case.) -/
def calculateCompressionRatio (originalText summary : String) : ℤ :=
  jsRound ((1 - (countWords summary : ℚ) / (countWords originalText : ℚ)) * 100)

/-! ## Summarization route (`src/app/api/summarize/route.ts`) -/

/-- `HUGGINGFACE_MODELS`: the recognized summarization model keys and the
model names they map to. -/
def HUGGINGFACE_MODELS : String → Option String
  | "bart-cnn" => some "facebook/bart-large-cnn"
  | "t5-small" => some "t5-small"
  | "pegasus" => some "google/pegasus-large"
  | _ => none

/-- One element of a Hugging Face array response: the two optional string fields
the route inspects. -/
structure HFArrayElem where
  summary_text : Option String
  generated_text : Option String
deriving DecidableEq

/-- The parsed JSON body of a Hugging Face inference response, as far as the
route can distinguish shapes: an array of objects, a bare string, or anything else. -/
inductive HFRaw
  | arr (elems : List HFArrayElem)
  | str (s : String)
  | other
deriving DecidableEq

/-- A field access guarded by JavaScript truthiness: a missing field or an
empty string both fail the `if` test. -/
def truthyStrField : Option String → Option String
  | some s => if s.isEmpty then none else some s
  | none => none

/-- The response-format handling at the end of `callHuggingFaceAPI`:
return `result[0].summary_text` if truthy, else `result[0].generated_text`
if truthy, else the body itself when it is a string, else throw. -/
def parseHFResponse (r : HFRaw) : Except String String :=
  match r with
  | .arr elems =>
    match truthyStrField (elems.head?.bind (·.summary_text)) with
    | some s => .ok s
    | none =>
      match truthyStrField (elems.head?.bind (·.generated_text)) with
      | some s => .ok s
      | none => .error "Unexpected response format from Hugging Face"
  | .str s => .ok s
  | .other => .error "Unexpected response format from Hugging Face"

/-- Environment of the summarization route: the two credentials and the two
remote services.  `hfFetch model text` is the outcome of the fetch to the
Hugging Face inference endpoint (`Except.error` for a network failure or a
non-ok HTTP response, `Except.ok` carrying the parsed JSON body);
`geminiGenerate prompt` is the outcome of `generateContent` plus `response.text()`. -/
structure SummarizeEnv where
  hfToken : Option String
  geminiKey : Option String
  hfFetch : String → String → Except String HFRaw
  geminiGenerate : String → Except String String

/-- `callHuggingFaceAPI(text, model)`: throws when the token is missing or a
placeholder, otherwise performs the fetch and applies the response-format handling. -/
def callHuggingFaceAPI (env : SummarizeEnv) (text model : String) : Except String String :=
  if hfTokenConfigured env.hfToken = false then
    .error "Hugging Face API token not configured"
  else
    match env.hfFetch model text with
    | .error e => .error e
    | .ok raw => parseHFResponse raw

/-- `tryHuggingFaceSummarization(text, model)`: looks up the model key and calls
the API, catching any exception and returning null.  (The route only invokes it
on recognized keys, guarded by `if (HUGGINGFACE_MODELS[modelKey])`; on an
unrecognized key the fetch would target a nonexistent model and fail, so the
unreachable branch is modelled as null.) -/
def tryHuggingFaceSummarization (env : SummarizeEnv) (text model : String) : Option String :=
  match HUGGINGFACE_MODELS model with
  | some modelName =>
    match callHuggingFaceAPI env text modelName with
    | .ok s => some s
    | .error _ => none
  | none => none

/-- The prompt `tryGeminiSummarization` builds. -/
def geminiSummarizePrompt (text summaryType : String) : String :=
  "Please provide a " ++ summaryType ++
  " summary of the following text. The summary should be concise, informative, and capture the main points:\n\nText to summarize:\n"
  ++ text ++ "\n\nSummary:"

/-- `tryGeminiSummarization(text, summaryType)`: throws (caught, null) when the
Gemini key is missing or a placeholder, else returns the generated text, with
any exception caught and turned into null. -/
def tryGeminiSummarization (env : SummarizeEnv) (text summaryType : String) : Option String :=
  if geminiKeyConfigured env.geminiKey = false then none
  else
    match env.geminiGenerate (geminiSummarizePrompt text summaryType) with
    | .ok s => some s
    | .error _ => none

/-- A request-body field that should be a string: absent (undefined or null),
an actual string, or a present non-string value (with its truthiness). -/
inductive JsStrField
  | missing
  | strVal (s : String)
  | nonString (truthy : Bool)
deriving DecidableEq

/-- Body of a summarization request after `req.json()`. `model` and
`summaryType` default to `"bart-cnn"` and `"concise"` when absent. -/
structure SummarizeReq where
  text : JsStrField
  model : Option String
  summaryType : Option String
deriving DecidableEq

/-- A provider attempt made by the summarization route. -/
inductive ProviderCall
  | hf (modelKey : String)
  | gemini
deriving DecidableEq

/-- Observable response of the summarization route (error messages beyond the
status and success flag are omitted). -/
structure SummarizeResp where
  status : Nat
  success : Bool
  summary : Option String
  wordCount : Option Nat
  compressionRatio : Option ℤ
deriving DecidableEq

/-- The `for (const modelKey of modelOrder)` loop: skip keys not present in
`HUGGINGFACE_MODELS`; call `tryHuggingFaceSummarization` on the rest; break on a
truthy summary.  Returns the loop value (the first truthy summary, if any — a
falsy loop exit, null or empty string, is uniformly `none`, which is what the
subsequent `if (!summary)` tests) together with the list of attempts made. -/
def summarizeLoop (env : SummarizeEnv) (text : String) :
    List String → Option String × List ProviderCall
  | [] => (none, [])
  | k :: rest =>
    if (HUGGINGFACE_MODELS k).isSome then
      match tryHuggingFaceSummarization env text k with
      | some s =>
        if s.isEmpty then
          let r := summarizeLoop env text rest
          (r.1, .hf k :: r.2)
        else (some s, [.hf k])
      | none =>
        let r := summarizeLoop env text rest
        (r.1, .hf k :: r.2)
    else summarizeLoop env text rest

/-- The summarization `POST` handler: validation, the Hugging Face preference
loop, the Gemini fallback, the 503 exhaustion response, and the success payload
(`summary.trim()`, its word count, and the compression ratio). -/
def summarizePOST (env : SummarizeEnv) (req : SummarizeReq) :
    SummarizeResp × List ProviderCall :=
  match req.text with
  | .missing => (⟨400, false, none, none, none⟩, [])
  | .nonString _ => (⟨400, false, none, none, none⟩, [])
  | .strVal text =>
    if text.isEmpty then (⟨400, false, none, none, none⟩, [])
    else if text.length < 50 then (⟨400, false, none, none, none⟩, [])
    else if text.length > 10000 then (⟨400, false, none, none, none⟩, [])
    else
      let modelOrder := [req.model.getD "bart-cnn", "bart-cnn", "t5-small"]
      let r := summarizeLoop env text modelOrder
      match r.1 with
      | some summary =>
        let t := jsTrim summary
        (⟨200, true, some t, some (countWords t), some (calculateCompressionRatio text t)⟩, r.2)
      | none =>
        match tryGeminiSummarization env text (req.summaryType.getD "concise") with
        | some summary =>
          if summary.isEmpty then
            (⟨503, false, none, none, none⟩, r.2 ++ [.gemini])
          else
            let t := jsTrim summary
            (⟨200, true, some t, some (countWords t), some (calculateCompressionRatio text t)⟩,
             r.2 ++ [.gemini])
        | none => (⟨503, false, none, none, none⟩, r.2 ++ [.gemini])

/-! ## Classification route (`src/app/api/classify/route.ts`) -/

/-- `HUGGINGFACE_CLASSIFICATION_MODELS`: the recognized classification model keys. -/
def HUGGINGFACE_CLASSIFICATION_MODELS : String → Option String
  | "sentiment-analysis" => some "cardiffnlp/twitter-roberta-base-sentiment-latest"
  | "topic-classification" => some "facebook/bart-large-mnli"
  | "emotion-detection" => some "joeddav/distilbert-base-uncased-go-emotions-student"
  | _ => none

/-- Environment of the classification route.  The payload of a successful
provider response is abstracted to `Unit` because no claim inspects it; only
success versus failure of each provider drives the status codes at issue.
`hfFetch` takes the looked-up model name (`none` when the requested key is
unrecognized, in which case the fetch targets a nonexistent URL);
`geminiGenerate` is the outcome of `generateContent` plus `JSON.parse` of its
text (a parse failure is an `Except.error`, caught by the enclosing try). -/
structure ClassifyEnv where
  hfToken : Option String
  geminiKey : Option String
  hfFetch : Option String → Except String Unit
  geminiGenerate : Except String Unit

/-- `callHuggingFaceClassificationAPI`: throws when the token is missing or a
placeholder, otherwise performs the fetch. -/
def callHuggingFaceClassificationAPI (env : ClassifyEnv) (modelName : Option String) :
    Except String Unit :=
  if hfTokenConfigured env.hfToken = false then
    .error "Hugging Face API token not configured"
  else env.hfFetch modelName

/-- `tryHuggingFaceClassification`: looks up the model key, calls the API,
and catches any exception as null. -/
def tryHuggingFaceClassification (env : ClassifyEnv) (model : String) : Option Unit :=
  (callHuggingFaceClassificationAPI env (HUGGINGFACE_CLASSIFICATION_MODELS model)).toOption

/-- `tryGeminiClassification`: throws (caught, null) when the Gemini key is
missing or a placeholder; silently returns null for a model key with no prompt
branch (including `topic-classification` without custom labels); otherwise
makes the generate call, catching any exception (including JSON parse failure)
as null. -/
def tryGeminiClassification (env : ClassifyEnv) (model : String)
    (customLabels : Option (List String)) : Option Unit :=
  if geminiKeyConfigured env.geminiKey = false then none
  else if model = "sentiment-analysis" then env.geminiGenerate.toOption
  else if model = "topic-classification" ∧ customLabels.isSome then env.geminiGenerate.toOption
  else if model = "emotion-detection" then env.geminiGenerate.toOption
  else none

/-- Body of a classification request. -/
structure ClassifyReq where
  text : JsStrField
  model : Option String
  customLabels : Option (List String)
deriving DecidableEq

/-- Observable response of the classification route.  On success the
normalization of the provider payload is abstracted away (status 200 with
`success = true`); no claim concerns the normalized payload. -/
structure ClassifyResp where
  status : Nat
  success : Bool
deriving DecidableEq

/-- The classification `POST` handler: validation
(`!text || typeof text !== "string" || !model`), the Hugging Face attempt, the
Gemini fallback, and the 503 exhaustion response. -/
def classifyPOST (env : ClassifyEnv) (req : ClassifyReq) : ClassifyResp :=
  match req.text with
  | .missing => ⟨400, false⟩
  | .nonString _ => ⟨400, false⟩
  | .strVal text =>
    if text.isEmpty then ⟨400, false⟩
    else if jsStrTruthy req.model = false then ⟨400, false⟩
    else
      let model := req.model.getD ""
      match tryHuggingFaceClassification env model with
      | some _ => ⟨200, true⟩
      | none =>
        match tryGeminiClassification env model req.customLabels with
        | some _ => ⟨200, true⟩
        | none => ⟨503, false⟩

/-! ## RAG document store route (bundled in `src/app/api/chat-enhanced/route.ts`) -/

/-- A stored document chunk: the chunk text and the `source` metadata
(the uploaded filename) attached by `createDocuments`. -/
structure RagChunk where
  text : String
  source : String
deriving DecidableEq

/-- The module-level mutable state of the route: `vectorStore` (null until the
first successful ingestion, reset to null by clear) and `documentCount`.
Embedding vectors live inside the external `MemoryVectorStore`; no claim
inspects them, so the store is modelled by its stored chunks. -/
structure RagState where
  vectorStore : Option (List RagChunk)
  documentCount : Nat
deriving DecidableEq

/-- The state at process start. -/
def initialRagState : RagState := ⟨none, 0⟩

/-- An uploaded file: name, declared MIME type, and raw content. -/
structure RagFile where
  name : String
  mime : String
  content : String
deriving DecidableEq

/-- Environment of the RAG route: the OpenRouter key and the delegated
capabilities.  `splitText` is the `RecursiveCharacterTextSplitter` (opaque per
the spec); `embedDocuments` is the embedding call `MemoryVectorStore` makes for
added documents; `embedQuery` and `chatComplete` are the embedding and
chat-completion steps of the retrieval chain (the top-4 similarity selection is
internal to the delegated vector store and chain). -/
structure RagEnv where
  openrouterKey : Option String
  extractPdf : String → Except String String
  extractDocx : String → Except String String
  splitText : String → List String
  embedDocuments : List String → Except String Unit
  embedQuery : String → Except String Unit
  chatComplete : List RagChunk → String → Except String String

/-- A remote capability invocation made while serving one RAG request. -/
inductive RagCall
  | embed
  | chat
deriving DecidableEq

/-- `extractTextFromFile`: dispatch on the declared MIME type; unsupported
types throw. -/
def extractTextFromFile (env : RagEnv) (f : RagFile) : Except String String :=
  if f.mime = "application/pdf" then env.extractPdf f.content
  else if f.mime = "application/vnd.openxmlformats-officedocument.wordprocessingml.document" then
    env.extractDocx f.content
  else if f.mime = "text/plain" then .ok f.content
  else .error "Unsupported file type. Please upload PDF, DOCX, or TXT files."

/-- `processDocument(text, filename)`: split the text into chunks carrying
`source = filename`, embed and store them (creating the store on first use,
appending afterwards), increment `documentCount` by one, and return the chunk
count.  An embedding failure throws before any mutation. -/
def processDocument (env : RagEnv) (st : RagState) (text filename : String) :
    Except String (RagState × Nat) :=
  let docs := (env.splitText text).map (fun t => RagChunk.mk t filename)
  match env.embedDocuments (docs.map (·.text)) with
  | .error e => .error e
  | .ok _ =>
    match st.vectorStore with
    | none => .ok (⟨some docs, st.documentCount + 1⟩, docs.length)
    | some store => .ok (⟨some (store ++ docs), st.documentCount + 1⟩, docs.length)

/-- `queryDocuments(question)`: throws `"No documents have been uploaded yet."`
when the store is null — before the key check and before any embedding or chat
call; throws on a missing key; otherwise embeds the question and invokes the
chat completion on the retrieval context.  The returned list records which
remote capabilities were invoked. -/
def queryDocuments (env : RagEnv) (st : RagState) (question : String) :
    Except String String × List RagCall :=
  match st.vectorStore with
  | none => (.error "No documents have been uploaded yet.", [])
  | some store =>
    if openrouterKeyConfigured env.openrouterKey = false then
      (.error "OpenRouter API key not configured", [])
    else
      match env.embedQuery question with
      | .error e => (.error e, [.embed])
      | .ok _ =>
        match env.chatComplete store question with
        | .error e => (.error e, [.embed, .chat])
        | .ok ans => (.ok ans, [.embed, .chat])

/-- One `POST` request to the RAG route, discriminated by the `action`
query parameter. -/
inductive RagAction
  | upload (file : Option RagFile)
  | query (question : JsStrField)
  | clear
  | invalidAction
deriving DecidableEq

/-- Observable response of the RAG route. -/
structure RagResp where
  status : Nat
  success : Bool
  answer : Option String
  totalDocuments : Option Nat
  chunkCount : Option Nat
  errorMsg : Option String
deriving DecidableEq

/-- The RAG `POST` handler: upload (extract, process, report counts), query
(validate the question, query the documents), clear (reset the module state),
and the invalid-action branch.  Any exception thrown inside reaches the
enclosing catch and is returned as `"Server error: ..."` with HTTP 500.
The result is the response, the new module state, and the remote capability
calls made. -/
def ragPOST (env : RagEnv) (st : RagState) (a : RagAction) :
    RagResp × RagState × List RagCall :=
  match a with
  | .upload none => (⟨400, false, none, none, none, some "No file uploaded"⟩, st, [])
  | .upload (some f) =>
    match extractTextFromFile env f with
    | .error e => (⟨500, false, none, none, none, some ("Server error: " ++ e)⟩, st, [])
    | .ok text =>
      match processDocument env st text f.name with
      | .error e => (⟨500, false, none, none, none, some ("Server error: " ++ e)⟩, st, [.embed])
      | .ok (st2, chunkCount) =>
        (⟨200, true, none, some st2.documentCount, some chunkCount, none⟩, st2, [.embed])
  | .query q =>
    match q with
    | .missing => (⟨400, false, none, none, none, some "Question is required"⟩, st, [])
    | .nonString _ => (⟨400, false, none, none, none, some "Question is required"⟩, st, [])
    | .strVal question =>
      if question.isEmpty then
        (⟨400, false, none, none, none, some "Question is required"⟩, st, [])
      else
        match queryDocuments env st question with
        | (.error e, calls) =>
          (⟨500, false, none, none, none, some ("Server error: " ++ e)⟩, st, calls)
        | (.ok ans, calls) =>
          (⟨200, true, some ans, some st.documentCount, none, none⟩, st, calls)
  | .clear => (⟨200, true, none, none, none, none⟩, ⟨none, 0⟩, [])
  | .invalidAction => (⟨400, false, none, none, none, some "Invalid action"⟩, st, [])

/-- Replay a sequence of requests against the module state, starting from `st`. -/
def ragRun (env : RagEnv) (st : RagState) : List RagAction → RagState
  | [] => st
  | a :: rest => ragRun env (ragPOST env st a).2.1 rest

/-- The chunks currently stored (empty when the store is null). -/
def storeChunks (st : RagState) : List RagChunk :=
  st.vectorStore.getD []

/-- The number of distinct source files contributing chunks to the store
(the quantity the spec says `documentCount` equals). -/
def distinctSourceCount (st : RagState) : Nat :=
  (((storeChunks st).map (·.source)).dedup).length

/-- Does this action-response pair record a successful ingestion call? -/
def isSuccessfulUpload (a : RagAction) (r : RagResp) : Bool :=
  (match a with
   | .upload (some _) => true
   | _ => false) && r.success

/-! ## Enhanced chat route (`src/app/api/chat-enhanced/route.ts`) -/

/-- `AI_PERSONAS`: the four recognized persona keys, mapped to the display name
placed in the `X-AI-Persona` response header.  The long system-prompt texts are
not reproduced: they flow only into the opaque chat-completion capability. -/
def AI_PERSONAS : String → Option String
  | "developer" => some "👨‍💻 Developer Assistant"
  | "creative" => some "🎨 Creative Assistant"
  | "analyst" => some "📊 Business Analyst"
  | "general" => some "🤖 AI Assistant"
  | _ => none

/-- One element of the `messages` array, as far as the route reads it
(only `.content` of the last element is accessed). -/
structure ChatMsgJs where
  content : String
deriving DecidableEq

/-- The `messages` field of the request body: absent or null (falsy, rejected),
a present non-array value (rejected by `Array.isArray`; a falsy non-array is
rejected by the truthiness test first, with the same response), or an array. -/
inductive MessagesField
  | missing
  | nonArray
  | arr (msgs : List ChatMsgJs)
deriving DecidableEq

/-- Observable response of the enhanced chat route: status, the plain-text body
(for error responses) or the concatenation of the streamed fragments (for 200),
and whether the body was streamed. -/
structure ChatResp where
  status : Nat
  body : String
  isStream : Bool
deriving DecidableEq

/-- The message of the TypeError thrown by `messages[messages.length - 1].content`
on an empty array (reading a property of `undefined`).  The exact engine wording
is immaterial; every claim uses this fixed model string. -/
def undefinedContentMessage : String :=
  "Cannot read properties of undefined (reading content)"

/-- The message of the TypeError thrown by `AI_PERSONAS[persona].systemPrompt`
in `createPromptTemplate` for an unrecognized persona key. -/
def undefinedPersonaMessage : String :=
  "Cannot read properties of undefined (reading systemPrompt)"

/-- Environment of the enhanced chat route: the OpenRouter key and the
conversation chain.  `chainStream sessionId input` is the outcome of
`chain.stream({input})` for the session memory keyed by `sessionId`:
the finite ordered sequence of text fragments, or an error (memory handling,
prompting and the model call are delegated to LangChain). -/
structure ChatEnv where
  openrouterKey : Option String
  chainStream : String → String → Except String (List String)

/-- The enhanced chat `POST` handler: the up-front key check (400), the
messages presence and array-ness check (400), prompt construction for the
persona (a TypeError for unknown personas reaches the catch as 500),
`messages[messages.length - 1].content` (a TypeError on an empty array reaches
the catch as 500), and the streamed 200 response.  `persona` and `sessionId`
default to `"general"` and `"default"` when absent. -/
def enhancedChatPOST (env : ChatEnv) (messages : MessagesField)
    (persona sessionId : Option String) : ChatResp :=
  if openrouterKeyConfigured env.openrouterKey = false then
    ⟨400, "OpenRouter API key not configured. Please add your API key to .env.local", false⟩
  else
    match messages with
    | .missing => ⟨400, "Invalid messages format", false⟩
    | .nonArray => ⟨400, "Invalid messages format", false⟩
    | .arr msgs =>
      match AI_PERSONAS (persona.getD "general") with
      | none => ⟨500, "Error: " ++ undefinedPersonaMessage, false⟩
      | some _ =>
        match msgs.getLast? with
        | none => ⟨500, "Error: " ++ undefinedContentMessage, false⟩
        | some lastMessage =>
          match env.chainStream (sessionId.getD "default") lastMessage.content with
          | .error e => ⟨500, "Error: " ++ e, false⟩
          | .ok fragments => ⟨200, String.join fragments, true⟩

/-! ## Shared lemmas -/

/-- With the Hugging Face token missing or placeholder, every summarization
attempt throws inside `callHuggingFaceAPI` and is caught as null. -/
theorem tryHF_none_of_no_token (env : SummarizeEnv) (text k : String)
    (h : hfTokenConfigured env.hfToken = false) :
    tryHuggingFaceSummarization env text k = none := by
  unfold tryHuggingFaceSummarization callHuggingFaceAPI
  cases HUGGINGFACE_MODELS k <;> simp [h]

/-- When every candidate attempt in `order` is falsy (null or empty), the loop
falls through: it yields no summary and attempts exactly the recognized keys,
in order. -/
theorem summarizeLoop_all_falsy (env : SummarizeEnv) (text : String) (order : List String)
    (h : ∀ k ∈ order, jsStrTruthy (tryHuggingFaceSummarization env text k) = false) :
    summarizeLoop env text order =
      (none, (order.filter (fun k => (HUGGINGFACE_MODELS k).isSome)).map ProviderCall.hf) := by
  induction order with
  | nil => simp [summarizeLoop]
  | cons k rest ih =>
    have hk : jsStrTruthy (tryHuggingFaceSummarization env text k) = false := h k (by simp)
    have hrest : ∀ k2 ∈ rest, jsStrTruthy (tryHuggingFaceSummarization env text k2) = false :=
      fun k2 hk2 => h k2 (by simp [hk2])
    unfold summarizeLoop
    by_cases hrec : (HUGGINGFACE_MODELS k).isSome
    · cases htry : tryHuggingFaceSummarization env text k with
      | none => simp [hrec, htry, ih hrest]
      | some s =>
        have hs : s.isEmpty = true := by
          rw [htry] at hk
          simpa [jsStrTruthy] using hk
        simp [hrec, htry, hs, ih hrest]
    · simp only [Bool.not_eq_true] at hrec
      simp [hrec, ih hrest]

/-- A falsy Gemini outcome means the final `if (!summary)` takes the 503 branch:
either null or the empty string. -/
theorem geminiFalsy_cases (env : SummarizeEnv) (text styp : String)
    (h : jsStrTruthy (tryGeminiSummarization env text styp) = false) :
    tryGeminiSummarization env text styp = none ∨
    tryGeminiSummarization env text styp = some "" := by
  cases hg : tryGeminiSummarization env text styp with
  | none => exact Or.inl rfl
  | some s =>
    rw [hg] at h
    simp [jsStrTruthy, String.isEmpty_iff] at h
    exact Or.inr (by rw [h])

/-- Successful `processDocument`: the store gains exactly the chunks split from
this file (each tagged with its filename), `documentCount` rises by one, and
the returned value is the chunk count. -/
theorem processDocument_ok (env : RagEnv) (st : RagState) (text filename : String)
    (st2 : RagState) (n : Nat)
    (h : processDocument env st text filename = Except.ok (st2, n)) :
    st2.documentCount = st.documentCount + 1 ∧
    st2.vectorStore =
      some (storeChunks st ++ (env.splitText text).map (fun t => RagChunk.mk t filename)) ∧
    n = (env.splitText text).length := by
  simp only [processDocument] at h
  split at h
  · exact absurd h (by simp)
  · split at h
    next hv =>
      simp only [Except.ok.injEq, Prod.mk.injEq] at h
      refine ⟨?_, ?_, ?_⟩
      · rw [← h.1]
      · rw [← h.1]; simp [storeChunks, hv]
      · simp [← h.2, List.length_map]
    next store hv =>
      simp only [Except.ok.injEq, Prod.mk.injEq] at h
      refine ⟨?_, ?_, ?_⟩
      · rw [← h.1]
      · rw [← h.1]; simp [storeChunks, hv]
      · simp [← h.2, List.length_map]

/-! ## Claims -/

/-- A 100-word test text (single-character words separated by single spaces). -/
def textHundredWords : String :=
  String.mk (List.intercalate [' '] (List.replicate 100 ['w']))

/-- A 20-word test text. -/
def textTwentyWords : String :=
  String.mk (List.intercalate [' '] (List.replicate 20 ['w']))

/-- C8: for every successful summarization, word counts come from splitting the
trimmed text on runs of whitespace (witnessed on a text with doubled, mixed and
surrounding whitespace), and the compression ratio is
round((1 − summaryWords/originalWords) × 100): any original of 100 words with a
summary of 20 words yields exactly 80. -/
theorem compressionRatio_hundred_twenty_eq_80 :
    countWords "  alpha  beta\tgamma " = 3 ∧
    (∀ originalText summary : String,
       countWords originalText = 100 → countWords summary = 20 →
       calculateCompressionRatio originalText summary = 80) := by
  refine ⟨by decide, fun originalText summary h1 h2 => ?_⟩
  unfold calculateCompressionRatio jsRound
  rw [h1, h2]
  have : (1 - (20 : ℚ) / (100 : ℚ)) * 100 + 1 / 2 = 161 / 2 := by norm_num
  rw [show ((20 : Nat) : ℚ) = (20 : ℚ) by norm_num,
      show ((100 : Nat) : ℚ) = (100 : ℚ) by norm_num, this]
  exact Int.floor_eq_iff.mpr (by norm_num)

/-- Witness for C8 at concrete texts of 100 and 20 single-letter words. -/
theorem compressionRatio_hundred_twenty_eq_80_witness :
    countWords textHundredWords = 100 ∧ countWords textTwentyWords = 20 ∧
    calculateCompressionRatio textHundredWords textTwentyWords = 80 :=
  ⟨by decide, by decide,
   compressionRatio_hundred_twenty_eq_80.2 textHundredWords textTwentyWords
     (by decide) (by decide)⟩

/-- C9: a summarization request whose `text` field is missing, not a string,
shorter than 50 characters or longer than 10000 characters is answered with
HTTP 400 and `success:false`, and no provider attempt of any kind is made. -/
theorem summarize_invalid_text_rejected_before_providers
    (env : SummarizeEnv) (req : SummarizeReq)
    (h : req.text = JsStrField.missing ∨
         (∃ b, req.text = JsStrField.nonString b) ∨
         (∃ s, req.text = JsStrField.strVal s ∧ (s.length < 50 ∨ s.length > 10000))) :
    (summarizePOST env req).1.status = 400 ∧
    (summarizePOST env req).1.success = false ∧
    (summarizePOST env req).2 = [] := by
  rcases h with h | ⟨b, h⟩ | ⟨s, h, hlen⟩
  · simp [summarizePOST, h]
  · simp [summarizePOST, h]
  · simp only [summarizePOST, h]
    split_ifs with h1 h2 h3
    · exact ⟨rfl, rfl, rfl⟩
    · exact ⟨rfl, rfl, rfl⟩
    · exact ⟨rfl, rfl, rfl⟩
    · exact absurd hlen (by omega)

/-- Witness for C9 at a 9-character text. -/
theorem summarize_invalid_text_rejected_before_providers_witness :
    ("too short".length < 50) ∧
    ((summarizePOST ⟨none, none, fun _ _ => Except.error "", fun _ => Except.error ""⟩
        ⟨JsStrField.strVal "too short", none, none⟩).1.status = 400 ∧
     (summarizePOST ⟨none, none, fun _ _ => Except.error "", fun _ => Except.error ""⟩
        ⟨JsStrField.strVal "too short", none, none⟩).1.success = false ∧
     (summarizePOST ⟨none, none, fun _ _ => Except.error "", fun _ => Except.error ""⟩
        ⟨JsStrField.strVal "too short", none, none⟩).2 = []) :=
  ⟨by decide,
   summarize_invalid_text_rejected_before_providers _ _
     (Or.inr (Or.inr ⟨"too short", rfl, Or.inl (by decide)⟩))⟩

/-- C10: an enhanced-chat request with an empty `messages` array passes the
input validation (which checks only presence and array-ness), then
`messages[messages.length - 1].content` reads a property of `undefined` and
throws, so the route answers HTTP 500 with a plain-text error body — not the
400 `Invalid messages format` rejection. -/
theorem enhancedChat_empty_messages_500 (env : ChatEnv) (sid : Option String)
    (hkey : openrouterKeyConfigured env.openrouterKey = true) :
    enhancedChatPOST env (MessagesField.arr []) none sid =
      ⟨500, "Error: " ++ undefinedContentMessage, false⟩ ∧
    (enhancedChatPOST env (MessagesField.arr []) none sid).status ≠ 400 := by
  constructor
  · simp [enhancedChatPOST, hkey, AI_PERSONAS]
  · simp [enhancedChatPOST, hkey, AI_PERSONAS]

/-- Witness for C10 with a configured key. -/
theorem enhancedChat_empty_messages_500_witness :
    openrouterKeyConfigured (some "sk-or-v1-abc") = true ∧
    (enhancedChatPOST ⟨some "sk-or-v1-abc", fun _ _ => Except.ok ["hi"]⟩
        (MessagesField.arr []) none none =
      ⟨500, "Error: " ++ undefinedContentMessage, false⟩ ∧
     (enhancedChatPOST ⟨some "sk-or-v1-abc", fun _ _ => Except.ok ["hi"]⟩
        (MessagesField.arr []) none none).status ≠ 400) :=
  ⟨by decide, enhancedChat_empty_messages_500 _ _ (by decide)⟩

/-- A healthy RAG test environment: configured key, extraction and splitting
produce one chunk, embedding and chat succeed. -/
def ragEnvHealthy : RagEnv :=
  ⟨some "sk-or-v1-key", fun _ => Except.ok "pdf text", fun _ => Except.ok "docx text",
   fun _ => ["chunk one"], fun _ => Except.ok (), fun _ => Except.ok (),
   fun _ _ => Except.ok "an answer"⟩

/-- A plain-text test file. -/
def fileA : RagFile := ⟨"a.txt", "text/plain", "hello world content"⟩

/-- C1 (counterexample): a well-formed query against the empty store does fail
with the NoDocuments error and makes no embedding or chat call, but the generic
catch surfaces it as HTTP 500 — not as 400 or 409 as claimed — even with a
configured key and healthy capabilities. -/
theorem empty_store_query_counterexample :
    (ragPOST ragEnvHealthy initialRagState
        (RagAction.query (JsStrField.strVal "What is this about?"))).1.status = 500 ∧
    (ragPOST ragEnvHealthy initialRagState
        (RagAction.query (JsStrField.strVal "What is this about?"))).1.status ≠ 400 ∧
    (ragPOST ragEnvHealthy initialRagState
        (RagAction.query (JsStrField.strVal "What is this about?"))).1.status ≠ 409 ∧
    (ragPOST ragEnvHealthy initialRagState
        (RagAction.query (JsStrField.strVal "What is this about?"))).1.errorMsg =
      some "Server error: No documents have been uploaded yet." ∧
    (ragPOST ragEnvHealthy initialRagState
        (RagAction.query (JsStrField.strVal "What is this about?"))).2.2 = [] := by
  decide

/-- C1 (amended): every well-formed query served while the store is null fails
with the NoDocuments message surfaced by the generic handler as HTTP 500
(not 400/409), leaves the state untouched, and invokes neither the embedding
nor the chat-completion capability. -/
theorem empty_store_query_500_no_calls (env : RagEnv) (st : RagState) (q : String)
    (hempty : st.vectorStore = none) (hq : q.isEmpty = false) :
    ragPOST env st (RagAction.query (JsStrField.strVal q)) =
      (⟨500, false, none, none, none,
        some "Server error: No documents have been uploaded yet."⟩, st, []) := by
  simp [ragPOST, hq, queryDocuments, hempty]

/-- Witness for the amended C1 on the healthy environment. -/
theorem empty_store_query_500_no_calls_witness :
    initialRagState.vectorStore = none ∧ "What is this about?".isEmpty = false ∧
    ragPOST ragEnvHealthy initialRagState (RagAction.query (JsStrField.strVal "What is this about?")) =
      (⟨500, false, none, none, none,
        some "Server error: No documents have been uploaded yet."⟩, initialRagState, []) :=
  ⟨rfl, by decide, empty_store_query_500_no_calls ragEnvHealthy initialRagState _ rfl (by decide)⟩

/-- C7: every successful ingestion call increments `documentCount` by exactly
one — whatever number of chunks the splitter produced for the file — and the
clear action resets the store to null and the count to zero. -/
theorem ingest_increments_by_one_and_clear_resets :
    (∀ (env : RagEnv) (st : RagState) (f : RagFile),
       (ragPOST env st (RagAction.upload (some f))).1.success = true →
       ((ragPOST env st (RagAction.upload (some f))).2.1).documentCount = st.documentCount + 1) ∧
    (∀ (env : RagEnv) (st : RagState),
       ragPOST env st RagAction.clear =
         (⟨200, true, none, none, none, none⟩, ⟨none, 0⟩, [])) := by
  constructor
  · intro env st f hsucc
    simp only [ragPOST] at hsucc ⊢
    cases hx : extractTextFromFile env f with
    | error e => rw [hx] at hsucc; simp at hsucc
    | ok text =>
      rw [hx] at hsucc
      dsimp only at hsucc ⊢
      cases hp : processDocument env st text f.name with
      | error e => rw [hp] at hsucc; simp at hsucc
      | ok r =>
        obtain ⟨st2, n⟩ := r
        dsimp only
        exact (processDocument_ok env st text f.name st2 n hp).1
  · intro env st
    rfl

/-- Witness for C7: a successful plain-text upload from the initial state. -/
theorem ingest_increments_by_one_and_clear_resets_witness :
    (ragPOST ragEnvHealthy initialRagState (RagAction.upload (some fileA))).1.success = true ∧
    ((ragPOST ragEnvHealthy initialRagState (RagAction.upload (some fileA))).2.1).documentCount =
      initialRagState.documentCount + 1 :=
  ⟨by decide,
   ingest_increments_by_one_and_clear_resets.1 ragEnvHealthy initialRagState fileA (by decide)⟩

/-- C3 (counterexample): ingesting the same file twice from the initial state
reaches a state whose `documentCount` is 2 although only one distinct source
file contributed chunks — `documentCount` is not the distinct-source count. -/
theorem documentCount_distinct_sources_counterexample :
    (ragRun ragEnvHealthy initialRagState
        [RagAction.upload (some fileA), RagAction.upload (some fileA)]).documentCount = 2 ∧
    distinctSourceCount (ragRun ragEnvHealthy initialRagState
        [RagAction.upload (some fileA), RagAction.upload (some fileA)]) = 1 ∧
    (2 : Nat) ≠ 1 := by
  decide

/-- Upload outcome when text extraction throws. -/
theorem ragPOST_upload_extract_error (env : RagEnv) (st : RagState) (f : RagFile) (e : String)
    (hx : extractTextFromFile env f = Except.error e) :
    ragPOST env st (RagAction.upload (some f)) =
      (⟨500, false, none, none, none, some ("Server error: " ++ e)⟩, st, []) := by
  simp [ragPOST, hx]

/-- Upload outcome when extraction succeeds but processing throws. -/
theorem ragPOST_upload_process_error (env : RagEnv) (st : RagState) (f : RagFile)
    (text e : String) (hx : extractTextFromFile env f = Except.ok text)
    (hp : processDocument env st text f.name = Except.error e) :
    ragPOST env st (RagAction.upload (some f)) =
      (⟨500, false, none, none, none, some ("Server error: " ++ e)⟩, st, [RagCall.embed]) := by
  simp [ragPOST, hx, hp]

/-- Upload outcome when extraction and processing both succeed. -/
theorem ragPOST_upload_ok (env : RagEnv) (st : RagState) (f : RagFile)
    (text : String) (st2 : RagState) (n : Nat)
    (hx : extractTextFromFile env f = Except.ok text)
    (hp : processDocument env st text f.name = Except.ok (st2, n)) :
    ragPOST env st (RagAction.upload (some f)) =
      (⟨200, true, none, some st2.documentCount, some n, none⟩, st2, [RagCall.embed]) := by
  simp [ragPOST, hx, hp]

/-- C3 (amended): at every step `documentCount` is reset to 0 by clear,
incremented by exactly one by a successful upload (regardless of the filename,
so repeated files are counted again), and left unchanged by every other
request — it counts successful ingestion calls since the last clear, not
distinct source files, and no operation other than clear ever decreases it. -/
theorem documentCount_step_characterization (env : RagEnv) (st : RagState) (a : RagAction) :
    ((ragPOST env st a).2.1).documentCount =
      (if a = RagAction.clear then 0
       else if isSuccessfulUpload a (ragPOST env st a).1 = true then st.documentCount + 1
       else st.documentCount) := by
  cases a with
  | upload file =>
    cases file with
    | none => simp [ragPOST, isSuccessfulUpload]
    | some f =>
      cases hx : extractTextFromFile env f with
      | error e => rw [ragPOST_upload_extract_error env st f e hx]; simp [isSuccessfulUpload]
      | ok text =>
        cases hp : processDocument env st text f.name with
        | error e =>
          rw [ragPOST_upload_process_error env st f text e hx hp]
          simp [isSuccessfulUpload]
        | ok r =>
          obtain ⟨st2, n⟩ := r
          rw [ragPOST_upload_ok env st f text st2 n hx hp]
          have hc := (processDocument_ok env st text f.name st2 n hp).1
          simp [isSuccessfulUpload, hc]
  | query q =>
    cases q with
    | missing => simp [ragPOST, isSuccessfulUpload]
    | nonString b => simp [ragPOST, isSuccessfulUpload]
    | strVal s =>
      by_cases hs : s.isEmpty
      · simp [ragPOST, hs, isSuccessfulUpload]
      · cases hq : queryDocuments env st s with
        | mk res calls =>
          cases res <;> simp [ragPOST, hs, hq, isSuccessfulUpload]
  | clear => simp [ragPOST]
  | invalidAction => simp [ragPOST, isSuccessfulUpload]

/-- When every candidate in the preference order is falsy and the Gemini
fallback is falsy, the summarization route answers 503 with `success:false`. -/
theorem summarizePOST_all_falsy_503 (env : SummarizeEnv) (req : SummarizeReq) (t : String)
    (ht : req.text = JsStrField.strVal t) (hne : t.isEmpty = false)
    (h50 : 50 ≤ t.length) (h10k : t.length ≤ 10000)
    (hloop : ∀ k ∈ [req.model.getD "bart-cnn", "bart-cnn", "t5-small"],
        jsStrTruthy (tryHuggingFaceSummarization env t k) = false)
    (hgem : jsStrTruthy (tryGeminiSummarization env t (req.summaryType.getD "concise")) = false) :
    (summarizePOST env req).1 = ⟨503, false, none, none, none⟩ := by
  have h1 : ¬(t.length < 50) := by omega
  have h2 : ¬(t.length > 10000) := by omega
  have hl := summarizeLoop_all_falsy env t _ hloop
  rcases geminiFalsy_cases env t (req.summaryType.getD "concise") hgem with hg | hg
  · simp [summarizePOST, ht, hne, h1, h2, hl, hg]
  · simp [summarizePOST, ht, hne, h1, h2, hl, hg]
    rfl

/-- A summarization environment with both credentials missing but healthy
remote services (showing the 503 is forced by the credential handling alone). -/
def summarizeEnvNoCreds : SummarizeEnv :=
  ⟨none, none, fun _ _ => Except.ok (HFRaw.arr [⟨some "a fine summary", none⟩]),
   fun _ => Except.ok "gemini summary"⟩

/-- A valid 60-character summarization request. -/
def summarizeReqValid : SummarizeReq :=
  ⟨JsStrField.strVal (String.mk (List.replicate 60 'x')), none, none⟩

/-- C2 (counterexample): with the Hugging Face token and the Gemini key both
absent, a valid summarization request is answered 503 — not the claimed 400 —
even though every remote service would have succeeded. -/
theorem credential_missing_counterexample :
    summarizeEnvNoCreds.hfToken = none ∧ summarizeEnvNoCreds.geminiKey = none ∧
    (summarizePOST summarizeEnvNoCreds summarizeReqValid).1.status = 503 ∧
    (summarizePOST summarizeEnvNoCreds summarizeReqValid).1.status ≠ 400 := by
  decide

/-- C2 (amended): the endpoints that check the OpenRouter key up front
(the enhanced chat route) answer a missing or placeholder credential with a
deterministic HTTP 400; the summarization and classification routes instead
swallow missing credentials as provider failures, deterministically answering
503 with `success:false` on an otherwise valid request — never a crash, but
not a 400. -/
theorem credential_missing_behavior :
    (∀ (env : ChatEnv) (m : MessagesField) (p sid : Option String),
       openrouterKeyConfigured env.openrouterKey = false →
       enhancedChatPOST env m p sid =
         ⟨400, "OpenRouter API key not configured. Please add your API key to .env.local", false⟩) ∧
    (∀ (env : SummarizeEnv) (req : SummarizeReq) (t : String),
       hfTokenConfigured env.hfToken = false →
       geminiKeyConfigured env.geminiKey = false →
       req.text = JsStrField.strVal t → t.isEmpty = false →
       50 ≤ t.length → t.length ≤ 10000 →
       (summarizePOST env req).1 = ⟨503, false, none, none, none⟩) ∧
    (∀ (env : ClassifyEnv) (req : ClassifyReq) (t : String),
       hfTokenConfigured env.hfToken = false →
       geminiKeyConfigured env.geminiKey = false →
       req.text = JsStrField.strVal t → t.isEmpty = false →
       jsStrTruthy req.model = true →
       classifyPOST env req = ⟨503, false⟩) := by
  refine ⟨?_, ?_, ?_⟩
  · intro env m p sid hkey
    simp [enhancedChatPOST, hkey]
  · intro env req t hhf hgk ht hne h50 h10k
    refine summarizePOST_all_falsy_503 env req t ht hne h50 h10k ?_ ?_
    · intro k _
      rw [tryHF_none_of_no_token env t k hhf]
      rfl
    · simp [tryGeminiSummarization, hgk, jsStrTruthy]
  · intro env req t hhf hgk ht hne hm
    simp [classifyPOST, ht, hne, hm, tryHuggingFaceClassification,
      callHuggingFaceClassificationAPI, hhf, tryGeminiClassification, hgk, Except.toOption]

/-- Witness for the amended C2: the enhanced chat route with a missing key, and
the summarization and classification routes with both credentials missing. -/
theorem credential_missing_behavior_witness :
    (openrouterKeyConfigured none = false ∧
     enhancedChatPOST ⟨none, fun _ _ => Except.ok ["hi"]⟩ (MessagesField.arr []) none none =
       ⟨400, "OpenRouter API key not configured. Please add your API key to .env.local", false⟩) ∧
    ((summarizePOST summarizeEnvNoCreds summarizeReqValid).1 = ⟨503, false, none, none, none⟩) ∧
    (classifyPOST ⟨none, none, fun _ => Except.ok (), Except.ok ()⟩
        ⟨JsStrField.strVal "great product", some "sentiment-analysis", none⟩ = ⟨503, false⟩) :=
  ⟨⟨by decide, credential_missing_behavior.1 _ _ none none (by decide)⟩,
   credential_missing_behavior.2.1 summarizeEnvNoCreds summarizeReqValid _
     (by decide) (by decide) rfl (by decide) (by decide) (by decide),
   credential_missing_behavior.2.2 _ _ "great product"
     (by decide) (by decide) rfl (by decide) (by decide)⟩

/-- C6: when every Hugging Face candidate in the preference order fails and the
Gemini fallback also fails, the summarization route answers
`{success:false}` with HTTP 503; likewise, when the Hugging Face attempt and
the Gemini fallback of the classification route both fail, it answers
`{success:false}` with HTTP 503. -/
theorem fallback_exhaustion_503 :
    (∀ (env : SummarizeEnv) (req : SummarizeReq) (t : String),
       req.text = JsStrField.strVal t → t.isEmpty = false →
       50 ≤ t.length → t.length ≤ 10000 →
       (∀ k ∈ [req.model.getD "bart-cnn", "bart-cnn", "t5-small"],
          jsStrTruthy (tryHuggingFaceSummarization env t k) = false) →
       jsStrTruthy (tryGeminiSummarization env t (req.summaryType.getD "concise")) = false →
       (summarizePOST env req).1.status = 503 ∧ (summarizePOST env req).1.success = false) ∧
    (∀ (env : ClassifyEnv) (req : ClassifyReq) (t : String),
       req.text = JsStrField.strVal t → t.isEmpty = false → jsStrTruthy req.model = true →
       tryHuggingFaceClassification env (req.model.getD "") = none →
       tryGeminiClassification env (req.model.getD "") req.customLabels = none →
       classifyPOST env req = ⟨503, false⟩) := by
  constructor
  · intro env req t ht hne h50 h10k hloop hgem
    have h := summarizePOST_all_falsy_503 env req t ht hne h50 h10k hloop hgem
    rw [h]
    exact ⟨rfl, rfl⟩
  · intro env req t ht hne hm hhf hgem
    simp [classifyPOST, ht, hne, hm, hhf, hgem]

/-- An all-failing classification environment (network failures everywhere). -/
def classifyEnvAllFail : ClassifyEnv :=
  ⟨some "hf_realtoken", some "gm_realkey", fun _ => Except.error "fetch failed",
   Except.error "fetch failed"⟩

/-- Witness for C6: an all-failing summarization environment (configured token,
failing network) and an all-failing classification environment. -/
theorem fallback_exhaustion_503_witness :
    ((summarizePOST ⟨some "hf_realtoken", some "gm_realkey", fun _ _ => Except.error "down",
         fun _ => Except.error "down"⟩ summarizeReqValid).1.status = 503 ∧
     (summarizePOST ⟨some "hf_realtoken", some "gm_realkey", fun _ _ => Except.error "down",
         fun _ => Except.error "down"⟩ summarizeReqValid).1.success = false) ∧
    classifyPOST classifyEnvAllFail
      ⟨JsStrField.strVal "great product", some "sentiment-analysis", none⟩ = ⟨503, false⟩ :=
  ⟨fallback_exhaustion_503.1 _ summarizeReqValid _ rfl (by decide) (by decide) (by decide)
     (by decide) (by decide),
   fallback_exhaustion_503.2 classifyEnvAllFail _ "great product" rfl (by decide) (by decide)
     (by decide) (by decide)⟩

/-- An environment whose bart-cnn call returns the empty string (a string-body
response) and whose t5-small call returns a nonempty summary. -/
def summarizeEnvEmptyThenOk : SummarizeEnv :=
  ⟨some "hf_tok", none,
   fun name _ => if name = "facebook/bart-large-cnn" then Except.ok (HFRaw.str "")
                 else Except.ok (HFRaw.str "from t5"),
   fun _ => Except.error "net"⟩

/-- C4 (counterexample): the first candidate succeeds — `callHuggingFaceAPI`
returns the string `""` without throwing, so `tryHuggingFaceSummarization`
yields a non-null result — yet the loop does not return its (normalized)
output: the truthiness test treats the empty string as a failure, a further
candidate is invoked, and its output is returned instead. -/
theorem fallback_empty_success_counterexample :
    tryHuggingFaceSummarization summarizeEnvEmptyThenOk "input text" "bart-cnn" = some "" ∧
    summarizeLoop summarizeEnvEmptyThenOk "input text" ["bart-cnn", "t5-small"] =
      (some "from t5", [ProviderCall.hf "bart-cnn", ProviderCall.hf "t5-small"]) ∧
    (some "from t5" : Option String) ≠ some "" := by
  decide

/-- C4 (amended): any exception inside a candidate is caught and treated as
candidate-failed, never propagated; and when every earlier candidate fails
(null or empty result) and candidate k+1 succeeds with a **nonempty** string,
the loop returns exactly that candidate's raw output (which the route then
trims for the response) and invokes no candidate after k+1.  A candidate
succeeding with the empty string is treated as failed. -/
theorem fallback_first_nonempty_success :
    (∀ (env : SummarizeEnv) (text k modelName e : String),
       HUGGINGFACE_MODELS k = some modelName →
       callHuggingFaceAPI env text modelName = Except.error e →
       tryHuggingFaceSummarization env text k = none) ∧
    (∀ (env : SummarizeEnv) (text : String) (l1 : List String) (c : String)
       (l2 : List String) (s : String),
       (∀ k ∈ l1, jsStrTruthy (tryHuggingFaceSummarization env text k) = false) →
       (HUGGINGFACE_MODELS c).isSome = true →
       tryHuggingFaceSummarization env text c = some s → s.isEmpty = false →
       summarizeLoop env text (l1 ++ c :: l2) =
         (some s,
          (l1.filter (fun k => (HUGGINGFACE_MODELS k).isSome)).map ProviderCall.hf
            ++ [ProviderCall.hf c])) := by
  constructor
  · intro env text k modelName e hk hc
    simp [tryHuggingFaceSummarization, hk, hc]
  · intro env text l1 c l2 s hfail hrec htry hs
    induction l1 with
    | nil =>
      simp only [List.nil_append]
      unfold summarizeLoop
      simp [hrec, htry, hs]
    | cons k rest ih =>
      have hk : jsStrTruthy (tryHuggingFaceSummarization env text k) = false :=
        hfail k (by simp)
      have hrest : ∀ k2 ∈ rest, jsStrTruthy (tryHuggingFaceSummarization env text k2) = false :=
        fun k2 h2 => hfail k2 (by simp [h2])
      simp only [List.cons_append]
      unfold summarizeLoop
      by_cases hr : (HUGGINGFACE_MODELS k).isSome
      · cases ht2 : tryHuggingFaceSummarization env text k with
        | none => simp [hr, ht2, ih hrest]
        | some s2 =>
          have hs2 : s2.isEmpty = true := by
            rw [ht2] at hk
            simpa [jsStrTruthy] using hk
          simp [hr, ht2, hs2, ih hrest]
      · simp only [Bool.not_eq_true] at hr
        simp [hr, ih hrest]

/-- An environment whose pegasus call fails and whose t5-small call succeeds. -/
def summarizeEnvPegasusFailT5Ok : SummarizeEnv :=
  ⟨some "hf_tok", none,
   fun name _ => if name = "t5-small" then Except.ok (HFRaw.str "hello world")
                 else Except.error "boom",
   fun _ => Except.error "x"⟩

/-- Witness for the amended C4: pegasus fails, t5-small succeeds nonempty, and
the bart-cnn candidate after it is never invoked. -/
theorem fallback_first_nonempty_success_witness :
    (∀ k ∈ ["pegasus"],
       jsStrTruthy (tryHuggingFaceSummarization summarizeEnvPegasusFailT5Ok "text" k) = false) ∧
    (HUGGINGFACE_MODELS "t5-small").isSome = true ∧
    tryHuggingFaceSummarization summarizeEnvPegasusFailT5Ok "text" "t5-small" =
      some "hello world" ∧
    "hello world".isEmpty = false ∧
    summarizeLoop summarizeEnvPegasusFailT5Ok "text" (["pegasus"] ++ "t5-small" :: ["bart-cnn"]) =
      (some "hello world",
       (["pegasus"].filter (fun k => (HUGGINGFACE_MODELS k).isSome)).map ProviderCall.hf
         ++ [ProviderCall.hf "t5-small"]) :=
  ⟨by decide, by decide, by decide, by decide,
   fallback_first_nonempty_success.2 summarizeEnvPegasusFailT5Ok "text" ["pegasus"]
     "t5-small" ["bart-cnn"] "hello world" (by decide) (by decide) (by decide) (by decide)⟩

/-- Specification-side helper for the amended C5: the prefix of a candidate
list up to and including the first element satisfying `p` (the whole list when
none does). -/
def stopAtFirstHit {α : Type} (p : α → Bool) : List α → List α
  | [] => []
  | x :: xs => if p x then [x] else x :: stopAtFirstHit p xs

/-- C5 (counterexample): with the default preferred model (bart-cnn) and every
attempt failing, the attempted candidate list is
[bart-cnn, bart-cnn, t5-small] followed by the Gemini fallback: bart-cnn is
attempted twice and the recognized model pegasus is never attempted — refuting
both the no-duplicates and the no-omission parts of the claim. -/
theorem candidate_order_counterexample :
    (summarizePOST summarizeEnvNoCreds summarizeReqValid).2 =
      [ProviderCall.hf "bart-cnn", ProviderCall.hf "bart-cnn", ProviderCall.hf "t5-small",
       ProviderCall.gemini] ∧
    ((summarizePOST summarizeEnvNoCreds summarizeReqValid).2).count
      (ProviderCall.hf "bart-cnn") = 2 ∧
    ProviderCall.hf "pegasus" ∉ (summarizePOST summarizeEnvNoCreds summarizeReqValid).2 ∧
    (HUGGINGFACE_MODELS "pegasus").isSome = true := by
  decide

/-- C5 (amended): the candidate keys examined are exactly
[preferred (default bart-cnn), bart-cnn, t5-small], in order; unrecognized
keys are skipped, attempts stop at the first truthy success, and the Gemini
fallback is appended exactly when the loop produced no summary.  Consequently
pegasus is attempted only when it is the preferred key, and bart-cnn or
t5-small can be attempted twice. -/
theorem candidate_order_characterization :
    (∀ (env : SummarizeEnv) (text : String) (order : List String),
       (summarizeLoop env text order).2 =
         (stopAtFirstHit (fun k => jsStrTruthy (tryHuggingFaceSummarization env text k))
             (order.filter (fun k => (HUGGINGFACE_MODELS k).isSome))).map ProviderCall.hf) ∧
    (∀ (env : SummarizeEnv) (req : SummarizeReq) (t : String),
       req.text = JsStrField.strVal t → t.isEmpty = false →
       50 ≤ t.length → t.length ≤ 10000 →
       (summarizePOST env req).2 =
         (summarizeLoop env t [req.model.getD "bart-cnn", "bart-cnn", "t5-small"]).2 ++
           (if (summarizeLoop env t [req.model.getD "bart-cnn", "bart-cnn", "t5-small"]).1.isSome
            then [] else [ProviderCall.gemini])) := by
  constructor
  · intro env text order
    induction order with
    | nil => simp [summarizeLoop, stopAtFirstHit]
    | cons k rest ih =>
      unfold summarizeLoop
      by_cases hr : (HUGGINGFACE_MODELS k).isSome
      · cases ht : tryHuggingFaceSummarization env text k with
        | none => simp [hr, ht, ih, stopAtFirstHit, jsStrTruthy]
        | some s =>
          by_cases hs : s.isEmpty
          · simp [hr, ht, hs, ih, stopAtFirstHit, jsStrTruthy]
          · simp [hr, ht, hs, ih, stopAtFirstHit, jsStrTruthy]
      · simp only [Bool.not_eq_true] at hr
        simp [hr, ih]
  · intro env req t ht hne h50 h10k
    have h1 : ¬(t.length < 50) := by omega
    have h2 : ¬(t.length > 10000) := by omega
    simp only [summarizePOST, ht, hne, Bool.false_eq_true, if_false, h1, h2]
    cases hl : summarizeLoop env t [req.model.getD "bart-cnn", "bart-cnn", "t5-small"] with
    | mk res calls =>
      cases res with
      | none =>
        cases hg : tryGeminiSummarization env t (req.summaryType.getD "concise") with
        | none => simp
        | some s =>
          by_cases hs : s.isEmpty
          · simp [hs]
          · simp [hs]
      | some s => simp

/-- Witness for the amended C5 on a concrete all-failing request. -/
theorem candidate_order_characterization_witness :
    (summarizePOST summarizeEnvNoCreds summarizeReqValid).2 =
      (summarizeLoop summarizeEnvNoCreds (String.mk (List.replicate 60 'x'))
          [summarizeReqValid.model.getD "bart-cnn", "bart-cnn", "t5-small"]).2 ++
        (if (summarizeLoop summarizeEnvNoCreds (String.mk (List.replicate 60 'x'))
              [summarizeReqValid.model.getD "bart-cnn", "bart-cnn", "t5-small"]).1.isSome
         then [] else [ProviderCall.gemini]) :=
  candidate_order_characterization.2 summarizeEnvNoCreds summarizeReqValid
    (String.mk (List.replicate 60 'x')) rfl (by decide) (by decide) (by decide)
